import Mathlib

/-!
Verification development for the sqldef-preview-action repository.

The repository ships two implementations of the action:
* `src/main.ts` — the current TypeScript implementation (functions
  `downloadSqldef`, `getCommandConfig`, `getSchemaFromBranch`, `runSqldef`,
  `createComment`, `run`);
* `src/index.js` — the legacy JavaScript implementation (functions
  `downloadSqldef`, `buildSqldefArgs`, `runSqldef`, `commentOnPR`, `run`).

Both are embedded below as pure Lean functions.  Effectful collaborators
(the git read, the sqldef subprocess, the comment API) are passed in as
explicit data: the exit codes and outputs they would produce, and for the
comment API a local list of comments standing for the state the API holds.
-/

namespace SqldefPreview

/-- Whitespace trimming on both ends of a string; models the JavaScript
`String.prototype.trim` (written over the character list so that it
evaluates by kernel reduction). -/
def strTrim (s : String) : String :=
  ⟨((s.data.dropWhile Char.isWhitespace).reverse.dropWhile Char.isWhitespace).reverse⟩

/-- Boolean substring test on character lists: `containsSub needle hay` is
true when `needle` occurs contiguously inside `hay`.  Models the JavaScript
`String.prototype.includes`. -/
def containsSub (needle : List Char) : List Char → Bool
  | [] => needle.isEmpty
  | c :: t => needle.isPrefixOf (c :: t) || containsSub needle t

/-- String form of `containsSub`; models `hay.includes(needle)`. -/
def strContainsB (hay needle : String) : Bool :=
  containsSub needle.data hay.data

/-- Connection parameters for one database kind, as read from the action
inputs.  An empty string models an unset input (JavaScript falsiness of
`core.getInput`). -/
structure ConnParams where
  user : String := ""
  password : String := ""
  host : String := ""
  port : String := ""
  database : String := ""
deriving DecidableEq, Repr

/-- The full input surface `getCommandConfig` in `src/main.ts` reads via
`core.getInput`. -/
structure ActionInputs where
  schemaFile : String
  configFile : String := ""
  pg : ConnParams := {}
  mysql : ConnParams := {}
  sqliteDatabase : String := ""
  mssql : ConnParams := {}
deriving DecidableEq, Repr

/-- `CommandConfig` from `src/main.ts`: the ordered argument list and the
environment overlay.  `command` is set to the empty string in the
source and never written afterwards. -/
structure CommandConfig where
  command : String := ""
  args : List String := []
  env : List (String × String) := []
deriving DecidableEq, Repr

/-- Embedding of `getCommandConfig` from `src/main.ts`.  For each recognized
command it mirrors the source literally: psqldef pushes `-h host -p port`,
optional `-U user`, optional positional database, and puts a non-empty
password into the `PGPASSWORD` environment entry; mysqldef pushes
`-h host -P port`, optional `-u user`, a single concatenated `-p<password>`
token when the password is non-empty and non-blank, then the positional
database; sqlite3def pushes only the positional database; mssqldef pushes
`-h host -P port`, optional `-U user`, a concatenated `-p<password>` token
under the same non-blank condition, then the positional database.  An
optional `--config <file>` pair and the final `--file <schemaFile>` pair are
appended for every kind.  Unrecognized commands produce the
`Unsupported command` error. -/
def getCommandConfig (command : String) (inp : ActionInputs) : Except String CommandConfig :=
  if command = "psqldef" then
    let p := inp.pg
    let host := if p.host = "" then "localhost" else p.host
    let port := if p.port = "" then "5432" else p.port
    let args := ["-h", host, "-p", port]
      ++ (if p.user ≠ "" then ["-U", p.user] else [])
      ++ (if p.database ≠ "" then [p.database] else [])
    let env := if p.password ≠ "" then [("PGPASSWORD", p.password)] else []
    .ok { command := "", env := env,
          args := args ++ (if inp.configFile ≠ "" then ["--config", inp.configFile] else [])
            ++ ["--file", inp.schemaFile] }
  else if command = "mysqldef" then
    let p := inp.mysql
    let host := if p.host = "" then "localhost" else p.host
    let port := if p.port = "" then "3306" else p.port
    let args := ["-h", host, "-P", port]
      ++ (if p.user ≠ "" then ["-u", p.user] else [])
      ++ (if p.password ≠ "" ∧ strTrim p.password ≠ "" then ["-p" ++ p.password] else [])
      ++ (if p.database ≠ "" then [p.database] else [])
    .ok { command := "", env := [],
          args := args ++ (if inp.configFile ≠ "" then ["--config", inp.configFile] else [])
            ++ ["--file", inp.schemaFile] }
  else if command = "sqlite3def" then
    let args := if inp.sqliteDatabase ≠ "" then [inp.sqliteDatabase] else []
    .ok { command := "", env := [],
          args := args ++ (if inp.configFile ≠ "" then ["--config", inp.configFile] else [])
            ++ ["--file", inp.schemaFile] }
  else if command = "mssqldef" then
    let p := inp.mssql
    let host := if p.host = "" then "localhost" else p.host
    let port := if p.port = "" then "1433" else p.port
    let args := ["-h", host, "-P", port]
      ++ (if p.user ≠ "" then ["-U", p.user] else [])
      ++ (if p.password ≠ "" ∧ strTrim p.password ≠ "" then ["-p" ++ p.password] else [])
      ++ (if p.database ≠ "" then [p.database] else [])
    .ok { command := "", env := [],
          args := args ++ (if inp.configFile ≠ "" then ["--config", inp.configFile] else [])
            ++ ["--file", inp.schemaFile] }
  else
    .error ("Unsupported command: " ++ command)

/-- Total extractor for concrete evaluations: the configuration produced by
`getCommandConfig`, or the empty configuration on error. -/
def cfgOf (command : String) (inp : ActionInputs) : CommandConfig :=
  match getCommandConfig command inp with
  | .ok cfg => cfg
  | .error _ => {}

/-- Embedding of the argument sanitizer inside `runSqldef` in
`src/main.ts`: every element whose predecessor is the literal `-P` is
replaced by the mask token `***`. -/
def sanitizeArgs (args : List String) : List String :=
  args.enum.map fun p =>
    if 0 < p.1 ∧ args.get? (p.1 - 1) = some "-P" then "***" else p.2

/-- The debug-level echo of the invocation line logged by `runSqldef` in
`src/main.ts` before executing the binary. -/
def debugLine (binaryPath : String) (args : List String) : String :=
  binaryPath ++ " " ++ String.intercalate " " (sanitizeArgs args)

/-- Outcome of the `git show <branch>:<schemaFile>` collaborator call made by
`getSchemaFromBranch` in `src/main.ts`: its exit code and captured stdout. -/
structure GitShowResult where
  exitCode : Nat
  stdout : String
deriving DecidableEq, Repr

/-- Result of `getSchemaFromBranch`: the string it returns (the empty string
is the absent marker, anything else is the temporary file path), and the
content of the temporary artifact still on disk afterwards (`none` when the
artifact was deleted or never filled). -/
structure BaselineFetch where
  result : String
  fileOnDisk : Option String
deriving DecidableEq, Repr

/-- Embedding of `getSchemaFromBranch` from `src/main.ts`: an empty temp
file is created and stdout appended to it; a non-zero git exit deletes the
temp file and returns the empty string as the absent marker; a zero exit
returns the temp path, whose content is exactly the captured stdout
(possibly empty). -/
def getSchemaFromBranch (g : GitShowResult) (tempFile : String) : BaselineFetch :=
  if g.exitCode ≠ 0 then { result := "", fileOnDisk := none }
  else { result := tempFile, fileOnDisk := some g.stdout }

/-- Environment of one `run` invocation of `src/main.ts`, after the tool has
been resolved: the trigger event name, the `baseline-schema-file` input (the
empty string models an unset input), the `schema-file` input, the temporary
path `getSchemaFromBranch` would use, the git collaborator outcome, and the
exit codes and output the sqldef subprocess would produce for the
baseline-apply call and the current-schema call. -/
structure RunEnv where
  eventName : String
  baselineInput : String
  schemaFile : String
  tempFile : String
  gitRes : GitShowResult
  baselineApplyExit : Nat
  currentApplyExit : Nat
  currentOutput : String
deriving DecidableEq, Repr

/-- Observable trace of one `run` invocation of `src/main.ts`:
whether the baseline-comparison branch was taken, whether the baseline-apply
sqldef call was made, whether the current-schema sqldef call was made,
whether `createComment` was invoked, whether the run ended in the outer
catch (`core.setFailed`), whether a baseline temporary artifact was
materialized by `getSchemaFromBranch`, and whether that artifact was
unlinked at the end of the run. -/
structure RunTrace where
  baselineMode : Bool
  baselineApplied : Bool
  currentApplied : Bool
  commentInvoked : Bool
  failed : Bool
  tempCreated : Bool
  tempRemoved : Bool
deriving DecidableEq, Repr

/-- The `actualBaselineFile` value computed by `run` in `src/main.ts`: the
explicit `baseline-schema-file` input when supplied, otherwise the string
returned by `getSchemaFromBranch`. -/
def actualBaseline (e : RunEnv) : String :=
  if e.baselineInput = "" then (getSchemaFromBranch e.gitRes e.tempFile).result
  else e.baselineInput

/-- Embedding of the orchestration in `run` from `src/main.ts`, starting
after the tool download and version check succeed.  The baseline-comparison
branch is taken when the event is a pull request with no explicit baseline
input, or when an explicit baseline input is supplied.  A baseline apply is
attempted exactly when the actual baseline file string is non-empty; a
non-zero exit there is rethrown after an error log, reaching the outer
catch, so the current-schema call never happens and the temp artifact is not
removed.  A non-zero exit of the current-schema call likewise reaches the
outer catch without removing the artifact.  On full success, `createComment`
is invoked exactly when the event is a pull request and no explicit baseline
input was given, and the temp artifact is unlinked exactly when it was
fetched from the branch and non-absent. -/
def runMain (e : RunEnv) : RunTrace :=
  if (e.eventName = "pull_request" ∧ e.baselineInput = "") ∨ e.baselineInput ≠ "" then
    let ab := actualBaseline e
    let tmp := decide (e.baselineInput = "" ∧ ab ≠ "")
    if ab ≠ "" then
      if e.baselineApplyExit ≠ 0 then
        { baselineMode := true, baselineApplied := true, currentApplied := false,
          commentInvoked := false, failed := true, tempCreated := tmp, tempRemoved := false }
      else if e.currentApplyExit ≠ 0 then
        { baselineMode := true, baselineApplied := true, currentApplied := true,
          commentInvoked := false, failed := true, tempCreated := tmp, tempRemoved := false }
      else
        { baselineMode := true, baselineApplied := true, currentApplied := true,
          commentInvoked := decide (e.eventName = "pull_request" ∧ e.baselineInput = ""),
          failed := false, tempCreated := tmp, tempRemoved := tmp }
    else
      if e.currentApplyExit ≠ 0 then
        { baselineMode := true, baselineApplied := false, currentApplied := true,
          commentInvoked := false, failed := true, tempCreated := tmp, tempRemoved := false }
      else
        { baselineMode := true, baselineApplied := false, currentApplied := true,
          commentInvoked := decide (e.eventName = "pull_request" ∧ e.baselineInput = ""),
          failed := false, tempCreated := tmp, tempRemoved := false }
  else
    if e.currentApplyExit ≠ 0 then
      { baselineMode := false, baselineApplied := false, currentApplied := true,
        commentInvoked := false, failed := true, tempCreated := false, tempRemoved := false }
    else
      { baselineMode := false, baselineApplied := false, currentApplied := true,
        commentInvoked := false, failed := false, tempCreated := false, tempRemoved := false }

/-- Embedding of the output interpretation in `run` from `src/index.js`:
the dry-run stdout is trimmed, and `hasChanges` is true exactly when the
trimmed plan is non-empty and includes neither the `Nothing is modified`
phrase nor the `-- Nothing to apply --` phrase. -/
def hasChanges (stdoutText : String) : Bool :=
  let migrationPlan := strTrim stdoutText
  decide (0 < migrationPlan.length)
    && !(strContainsB migrationPlan "Nothing is modified")
    && !(strContainsB migrationPlan "-- Nothing to apply --")

/-- Two consecutive current-schema (dry-run) steps against a database whose
state the engine may thread: each step feeds its resulting database state to
the next and its textual output to `hasChanges`. -/
def dryRunTwice {σ : Type} (engine : σ → σ × String) (db : σ) : Bool × Bool :=
  let r1 := engine db
  let r2 := engine r1.1
  (hasChanges r1.2, hasChanges r2.2)

/-- Environment of one `run` invocation of `src/index.js`, after the binary
download succeeds: the current and base branch names, whether the git fetch
and checkout of the base branch succeed, the exit code of the baseline apply
call, and the exit code and stdout of the final `--dry-run` call, plus the
comment preconditions. -/
structure JsEnv where
  currentBranch : String
  baseBranch : String
  fetchOk : Bool
  checkoutOk : Bool
  baseApplyExit : Nat
  dryRunExit : Nat
  dryRunStdout : String
  hasToken : Bool
  isPullRequest : Bool
deriving DecidableEq, Repr

/-- Observable trace of one `run` invocation of `src/index.js`. -/
structure JsTrace where
  baselineApplied : Bool
  dryRunAttempted : Bool
  failed : Bool
  hasChangesOut : Option Bool
  commented : Bool
deriving DecidableEq, Repr

/-- Embedding of the orchestration in `run` from `src/index.js`: every
failure while establishing the baseline (fetch failure, checkout failure, or
a non-zero exit of the baseline apply) is downgraded to a warning and the
run proceeds; the `--dry-run` step always executes, and only its non-zero
exit makes the run fail.  On success the outputs are set and the PR comment
is posted when a token is configured and the payload carries a pull
request. -/
def runJs (e : JsEnv) : JsTrace :=
  let bapplied : Bool :=
    if e.currentBranch ≠ e.baseBranch then
      if e.fetchOk then
        if e.checkoutOk then decide (e.baseApplyExit = 0) else false
      else false
    else decide (e.baseApplyExit = 0)
  if e.dryRunExit ≠ 0 then
    { baselineApplied := bapplied, dryRunAttempted := true, failed := true,
      hasChangesOut := none, commented := false }
  else
    { baselineApplied := bapplied, dryRunAttempted := true, failed := false,
      hasChangesOut := some (hasChanges e.dryRunStdout),
      commented := e.hasToken && e.isPullRequest }

/-- A comment as held by the comment API: its id, the type of its author
(`Bot` for comments created by an Actions token), and its body. -/
structure Comment where
  id : Nat
  userType : String
  body : String
deriving DecidableEq, Repr

/-- State visible to `createComment` in `src/main.ts`: the trigger event
name, the posting token (the empty string models both an unset
`github-token` input and an unset `GITHUB_TOKEN` variable), and the comment
API state for the change request — the comments currently listed plus the
next fresh id the API would assign.  Modelled collaborator behavior: the
list/create/update API is local state, comments created with the token are
listed with author type `Bot`, update rewrites the body of the comment with
the given id, and ids handed out are fresh. -/
structure CommentCtx where
  eventName : String
  token : String
  comments : List Comment
  nextId : Nat
deriving DecidableEq, Repr

/-- Counts of the comment API calls a `createComment` invocation performs. -/
structure ApiCalls where
  listCalls : Nat
  createCalls : Nat
  updateCalls : Nat
deriving DecidableEq, Repr

/-- The fixed title of the preview comment in `src/main.ts`. -/
def commentTitle : String := "SQLDef Migration Preview"

/-- The matcher for the pre-existing preview comment: a Bot-authored comment
whose body includes the fixed title. -/
def isPreviewComment (c : Comment) : Bool :=
  c.userType = "Bot" && strContainsB c.body commentTitle

/-- The rendered comment body from `src/main.ts` (the template literal after
`trimStart`). -/
def commentBody (body : String) : String :=
  ("## " ++ commentTitle ++ "\n\n~~~sql\n") ++ body
    ++ "\n~~~\n\nThis comment was created by [sqldef-preview-action](https://github.com/sqldef/sqldef-preview-action).\n"

/-- Embedding of `createComment` from `src/main.ts`: outside a pull-request
event, or without a token, it returns without touching the API; otherwise it
lists the comments, looks for the first Bot-authored one whose body includes
the title, and either updates that comment in place or creates a new one
with a fresh id. -/
def createComment (ctx : CommentCtx) (body : String) : CommentCtx × ApiCalls :=
  if ctx.eventName ≠ "pull_request" then (ctx, ⟨0, 0, 0⟩)
  else if ctx.token = "" then (ctx, ⟨0, 0, 0⟩)
  else
    match ctx.comments.find? isPreviewComment with
    | some prev =>
      ({ ctx with comments := ctx.comments.map fun c =>
          if c.id = prev.id then { c with body := commentBody body } else c },
        ⟨1, 0, 1⟩)
    | none =>
      ({ ctx with
          comments := ctx.comments ++ [{ id := ctx.nextId, userType := "Bot", body := commentBody body }],
          nextId := ctx.nextId + 1 },
        ⟨1, 1, 0⟩)

/-- OS normalization shared by both downloaders (`os.platform()` values to
release labels): linux, darwin and win32 are recognized, anything else
throws `Unsupported platform`. -/
def osName (platform : String) : Except String String :=
  if platform = "linux" then .ok "linux"
  else if platform = "darwin" then .ok "darwin"
  else if platform = "win32" then .ok "windows"
  else .error ("Unsupported platform: " ++ platform)

/-- Architecture normalization in `downloadSqldef` from `src/main.ts`: only
x64 and arm64 are recognized. -/
def archNameTs (arch : String) : Except String String :=
  if arch = "x64" then .ok "amd64"
  else if arch = "arm64" then .ok "arm64"
  else .error ("Unsupported architecture: " ++ arch)

/-- The artifact file name built by `downloadSqldef` in `src/main.ts`: the
extension is `.tar.gz` for every platform. -/
def artifactNameTs (command osn archn : String) : String :=
  command ++ "_" ++ osn ++ "_" ++ archn ++ ".tar.gz"

/-- Embedding of the URL construction in `downloadSqldef` from
`src/main.ts`, up to the point where the download would start: platform and
architecture checks throw before any network activity; the `latest` version
sentinel selects the version-free download path. -/
def downloadUrlTs (command version platform arch : String) : Except String String :=
  match osName platform with
  | .error e => .error e
  | .ok osn =>
    match archNameTs arch with
    | .error e => .error e
    | .ok archn =>
      if version = "latest" then
        .ok ("https://github.com/sqldef/sqldef/releases/latest/download/"
          ++ artifactNameTs command osn archn)
      else
        .ok ("https://github.com/sqldef/sqldef/releases/download/" ++ version ++ "/"
          ++ artifactNameTs command osn archn)

/-- Architecture normalization in `downloadSqldef` from `src/index.js`: x64,
arm64, arm and ia32 are recognized. -/
def archNameJs (arch : String) : Except String String :=
  if arch = "x64" then .ok "amd64"
  else if arch = "arm64" then .ok "arm64"
  else if arch = "arm" then .ok "arm"
  else if arch = "ia32" then .ok "386"
  else .error ("Unsupported architecture: " ++ arch)

/-- The binary-name map in `downloadSqldef` from `src/index.js`. -/
def binaryNameJs (databaseType : String) : Except String String :=
  if databaseType = "mysql" then .ok "mysqldef"
  else if databaseType = "postgresql" then .ok "psqldef"
  else if databaseType = "sqlite3" then .ok "sqlite3def"
  else if databaseType = "mssql" then .ok "mssqldef"
  else .error ("Unsupported database type: " ++ databaseType)

/-- Embedding of the artifact file name construction in `downloadSqldef`
from `src/index.js`, up to the point where the download would start: the
platform check runs first, then the architecture check, then the binary-name
lookup, and the extension is `zip` on windows and `tar.gz` otherwise. -/
def fileNameJs (databaseType platform arch : String) : Except String String :=
  match osName platform with
  | .error e => .error e
  | .ok osn =>
    match archNameJs arch with
    | .error e => .error e
    | .ok archn =>
      match binaryNameJs databaseType with
      | .error e => .error e
      | .ok bn =>
        .ok (bn ++ "_" ++ osn ++ "_" ++ archn ++ "." ++ (if osn = "windows" then "zip" else "tar.gz"))

/-- The element immediately preceding the first occurrence of `v` in the
list; recovers which flag introduced a given argument value. -/
def flagBefore : List String → String → Option String
  | a :: b :: t, v => if b = v then some a else flagBefore (b :: t) v
  | _, _ => none

/-- The flag letter that carries the password `pw` in an argument list:
either the element preceding a standalone `pw` argument, or the letter of a
concatenated `-p<pw>` or `-P<pw>` token. -/
def passwordFlagIn (args : List String) (pw : String) : Option String :=
  match flagBefore args pw with
  | some f => some f
  | none =>
    if args.contains ("-p" ++ pw) then some "-p"
    else if args.contains ("-P" ++ pw) then some "-P"
    else none

/-- A full parameter set for every database kind, used for concrete
evaluations of the builder. -/
def inpFull : ActionInputs :=
  { schemaFile := "schema.sql",
    pg := { user := "pu", password := "ppw", host := "ph", port := "5433", database := "pdb" },
    mysql := { user := "root", password := "secret", host := "db.local", port := "3306", database := "appdb" },
    sqliteDatabase := "app.db",
    mssql := { user := "sa", password := "secret", host := "mh", port := "1433", database := "mdb" } }

section Lemmas

lemma isPrefixOf_append_right {n l m : List Char} (h : n.isPrefixOf l = true) :
    n.isPrefixOf (l ++ m) = true := by
  induction n generalizing l with
  | nil => simp [List.isPrefixOf]
  | cons a as ih =>
    cases l with
    | nil => simp [List.isPrefixOf] at h
    | cons b bs =>
      simp only [List.isPrefixOf, Bool.and_eq_true, beq_iff_eq] at h
      simp only [List.cons_append, List.isPrefixOf, Bool.and_eq_true, beq_iff_eq]
      exact ⟨h.1, ih h.2⟩

lemma containsSub_nil_left (hay : List Char) : containsSub [] hay = true := by
  cases hay with
  | nil => rfl
  | cons c t => simp [containsSub, List.isPrefixOf]

lemma containsSub_append_right {n l : List Char} (m : List Char)
    (h : containsSub n l = true) : containsSub n (l ++ m) = true := by
  induction l with
  | nil =>
    simp only [containsSub, List.isEmpty_iff] at h
    subst h
    simpa using containsSub_nil_left m
  | cons c t ih =>
    simp only [containsSub, Bool.or_eq_true] at h
    rcases h with h | h
    · simp only [List.cons_append, containsSub, Bool.or_eq_true]
      exact Or.inl (by simpa using isPrefixOf_append_right (m := m) h)
    · simp only [List.cons_append, containsSub, Bool.or_eq_true]
      exact Or.inr (ih h)

lemma strDataAppend (s t : String) : (s ++ t).data = s.data ++ t.data := rfl

/-- The rendered comment body always includes the fixed title, whatever the
embedded plan text is. -/
lemma commentBody_contains_title (b : String) :
    strContainsB (commentBody b) commentTitle = true := by
  have hpre : containsSub commentTitle.data ("## " ++ commentTitle ++ "\n\n~~~sql\n").data = true := by
    decide
  have h1 := containsSub_append_right (m := b.data) hpre
  have h2 := containsSub_append_right
    (m := ("\n~~~\n\nThis comment was created by [sqldef-preview-action](https://github.com/sqldef/sqldef-preview-action).\n" : String).data) h1
  unfold strContainsB commentBody
  rw [strDataAppend, strDataAppend]
  exact h2

lemma find?_append_of_none {α : Type} {p : α → Bool} {l₁ : List α} (l₂ : List α)
    (h : l₁.find? p = none) : (l₁ ++ l₂).find? p = l₂.find? p := by
  induction l₁ with
  | nil => simp
  | cons a t ih =>
    cases hpa : p a with
    | true => rw [List.find?_cons_of_pos _ hpa] at h; exact absurd h (by simp)
    | false =>
      rw [List.find?_cons_of_neg _ (by simp [hpa])] at h
      rw [List.cons_append, List.find?_cons_of_neg _ (by simp [hpa])]
      exact ih h

lemma map_keep_of_fresh {cs : List Comment} {nid : Nat} (f : Comment → Comment)
    (h : ∀ c ∈ cs, c.id ≠ nid) :
    cs.map (fun c => if c.id = nid then f c else c) = cs := by
  induction cs with
  | nil => rfl
  | cons a t ih =>
    have ha : a.id ≠ nid := h a (by simp)
    simp only [List.map_cons, if_neg ha]
    rw [ih fun c hc => h c (by simp [hc])]

end Lemmas

/-- C2 counterexample: for mysql with a full parameter set the builder in
`src/main.ts` leaves the environment overlay empty and places the password
inside an argument-list element (the concatenated `-p<password>` token), so
the password is not passed exclusively through the environment overlay for
mysql as claimed. -/
theorem mysql_password_on_args_cex :
    (cfgOf "mysqldef" inpFull).env = [] ∧
    (cfgOf "mysqldef" inpFull).args.contains ("-p" ++ "secret") = true ∧
    strContainsB ("-p" ++ "secret") "secret" = true := by
  refine ⟨by decide, by decide, by decide⟩

/-- C2 (amended): the builder of `src/main.ts` given a full parameter set
places the password exclusively in the environment overlay for postgresql
(`PGPASSWORD`, with no password-derived argument token), and exclusively in
the argument list as a single concatenated `-p<password>` token with an
empty environment overlay for mysql and mssql; sqlite takes no password at
all; for no kind does the password value go to both the argument list and
the environment overlay. -/
theorem password_placement_by_kind (inp : ActionInputs)
    (hcf : inp.configFile = "")
    (hpu : inp.pg.user ≠ "") (hpp : inp.pg.password ≠ "") (hph : inp.pg.host ≠ "")
    (hpo : inp.pg.port ≠ "") (hpd : inp.pg.database ≠ "")
    (hmu : inp.mysql.user ≠ "") (hmp : inp.mysql.password ≠ "")
    (hmt : strTrim inp.mysql.password ≠ "") (hmh : inp.mysql.host ≠ "")
    (hmo : inp.mysql.port ≠ "") (hmd : inp.mysql.database ≠ "")
    (hsd : inp.sqliteDatabase ≠ "")
    (hsu : inp.mssql.user ≠ "") (hsp : inp.mssql.password ≠ "")
    (hst : strTrim inp.mssql.password ≠ "") (hsh : inp.mssql.host ≠ "")
    (hso : inp.mssql.port ≠ "") (hsb : inp.mssql.database ≠ "") :
    getCommandConfig "psqldef" inp =
      .ok ⟨"", ["-h", inp.pg.host, "-p", inp.pg.port, "-U", inp.pg.user,
        inp.pg.database, "--file", inp.schemaFile], [("PGPASSWORD", inp.pg.password)]⟩ ∧
    getCommandConfig "mysqldef" inp =
      .ok ⟨"", ["-h", inp.mysql.host, "-P", inp.mysql.port, "-u", inp.mysql.user,
        "-p" ++ inp.mysql.password, inp.mysql.database, "--file", inp.schemaFile], []⟩ ∧
    getCommandConfig "sqlite3def" inp =
      .ok ⟨"", [inp.sqliteDatabase, "--file", inp.schemaFile], []⟩ ∧
    getCommandConfig "mssqldef" inp =
      .ok ⟨"", ["-h", inp.mssql.host, "-P", inp.mssql.port, "-U", inp.mssql.user,
        "-p" ++ inp.mssql.password, inp.mssql.database, "--file", inp.schemaFile], []⟩ := by
  refine ⟨?_, ?_, ?_, ?_⟩ <;>
    simp [getCommandConfig, hcf, hpu, hpp, hph, hpo, hpd, hmu, hmp, hmt, hmh, hmo, hmd,
      hsd, hsu, hsp, hst, hsh, hso, hsb]

/-- Witness for the amended C2 statement at a full concrete parameter set. -/
theorem password_placement_by_kind_witness :
    getCommandConfig "psqldef" inpFull =
      .ok ⟨"", ["-h", "ph", "-p", "5433", "-U", "pu", "pdb", "--file", "schema.sql"],
        [("PGPASSWORD", "ppw")]⟩ ∧
    getCommandConfig "mysqldef" inpFull =
      .ok ⟨"", ["-h", "db.local", "-P", "3306", "-u", "root", "-psecret", "appdb", "--file", "schema.sql"], []⟩ ∧
    getCommandConfig "sqlite3def" inpFull =
      .ok ⟨"", ["app.db", "--file", "schema.sql"], []⟩ ∧
    getCommandConfig "mssqldef" inpFull =
      .ok ⟨"", ["-h", "mh", "-P", "1433", "-U", "sa", "-psecret", "mdb", "--file", "schema.sql"], []⟩ := by
  have h := password_placement_by_kind inpFull rfl
    (by decide) (by decide) (by decide) (by decide) (by decide)
    (by decide) (by decide) (by decide) (by decide) (by decide) (by decide)
    (by decide)
    (by decide) (by decide) (by decide) (by decide) (by decide) (by decide)
  simpa using h

/-- C3 counterexample: at a full concrete parameter set, the mysql argument
list carries the port after the flag `-P` and the password inside a `-p`
concatenated token, and the mssql argument list does exactly the same: the
flag meaning port is `-P` for both kinds and the flag carrying the password
is `-p` for both kinds, so the `-p`/`-P` pair is shared between the two
kinds, not swapped. -/
theorem port_password_flags_not_swapped_cex :
    flagBefore (cfgOf "mysqldef" inpFull).args "3306" = some "-P" ∧
    passwordFlagIn (cfgOf "mysqldef" inpFull).args "secret" = some "-p" ∧
    flagBefore (cfgOf "mssqldef" inpFull).args "1433" = some "-P" ∧
    passwordFlagIn (cfgOf "mssqldef" inpFull).args "secret" = some "-p" ∧
    ("-P" : String) ≠ "-p" := by
  refine ⟨by decide, by decide, by decide, by decide, by decide⟩

/-- C3 (amended): for every full parameter set, the mysql and mssql argument
lists built by `src/main.ts` use the same flag letters: position 2 holds the
flag `-P` followed by the port at position 3 for both kinds, and position 6
holds the concatenated `-p<password>` token for both kinds; the pair is a
shared constant, not a per-kind swap. -/
theorem port_password_flags_shared (inp : ActionInputs)
    (hcf : inp.configFile = "")
    (hmu : inp.mysql.user ≠ "") (hmp : inp.mysql.password ≠ "")
    (hmt : strTrim inp.mysql.password ≠ "") (hmh : inp.mysql.host ≠ "")
    (hmo : inp.mysql.port ≠ "") (hmd : inp.mysql.database ≠ "")
    (hsu : inp.mssql.user ≠ "") (hsp : inp.mssql.password ≠ "")
    (hst : strTrim inp.mssql.password ≠ "") (hsh : inp.mssql.host ≠ "")
    (hso : inp.mssql.port ≠ "") (hsb : inp.mssql.database ≠ "") :
    ((cfgOf "mysqldef" inp).args[2]? = some "-P" ∧
     (cfgOf "mysqldef" inp).args[3]? = some inp.mysql.port ∧
     (cfgOf "mysqldef" inp).args[6]? = some ("-p" ++ inp.mysql.password)) ∧
    ((cfgOf "mssqldef" inp).args[2]? = some "-P" ∧
     (cfgOf "mssqldef" inp).args[3]? = some inp.mssql.port ∧
     (cfgOf "mssqldef" inp).args[6]? = some ("-p" ++ inp.mssql.password)) := by
  constructor <;>
    simp [cfgOf, getCommandConfig, hcf, hmu, hmp, hmt, hmh, hmo, hmd, hsu, hsp, hst, hsh, hso, hsb]

/-- Witness for the amended C3 statement at a full concrete parameter set. -/
theorem port_password_flags_shared_witness :
    ((cfgOf "mysqldef" inpFull).args[2]? = some "-P" ∧
     (cfgOf "mysqldef" inpFull).args[3]? = some "3306" ∧
     (cfgOf "mysqldef" inpFull).args[6]? = some "-psecret") ∧
    ((cfgOf "mssqldef" inpFull).args[2]? = some "-P" ∧
     (cfgOf "mssqldef" inpFull).args[3]? = some "1433" ∧
     (cfgOf "mssqldef" inpFull).args[6]? = some "-psecret") := by
  have h := port_password_flags_shared inpFull rfl
    (by decide) (by decide) (by decide) (by decide) (by decide) (by decide)
    (by decide) (by decide) (by decide) (by decide) (by decide) (by decide)
  simpa using h

/-- C4: the masking inside `runSqldef` of `src/main.ts` replaces the
argument that follows the literal `-P` — which is the port for both mysql
and mssql — while the password travels as a concatenated `-p<password>`
token that is never adjacent to `-P`; at a full mysql parameter set with
password `secret`, the sanitized argument list masks the port `3306` and the
debug-level echo of the invocation line still contains `secret` verbatim,
contradicting the claim (and the `Hide password value for security` comment
in the source). -/
theorem debug_echo_leaks_password :
    sanitizeArgs (cfgOf "mysqldef" inpFull).args =
      ["-h", "db.local", "-P", "***", "-u", "root", "-psecret", "appdb", "--file", "schema.sql"] ∧
    strContainsB (debugLine "/tool/mysqldef" (cfgOf "mysqldef" inpFull).args) "secret" = true := by
  refine ⟨by decide, by decide⟩

/-- A pull-request run where the baseline exists and its apply exits 1. -/
def envBaselineFail : RunEnv :=
  { eventName := "pull_request", baselineInput := "", schemaFile := "schema.sql",
    tempFile := "/tmp/schema-origin-main.sql", gitRes := ⟨0, "CREATE TABLE t (i BIGINT);"⟩,
    baselineApplyExit := 1, currentApplyExit := 0, currentOutput := "" }

/-- A pull-request run where the baseline applies but the current-schema
step exits 1. -/
def envCurrentFail : RunEnv :=
  { eventName := "pull_request", baselineInput := "", schemaFile := "schema.sql",
    tempFile := "/tmp/schema-origin-main.sql", gitRes := ⟨0, "CREATE TABLE t (i BIGINT);"⟩,
    baselineApplyExit := 0, currentApplyExit := 1, currentOutput := "" }

/-- A fully successful pull-request run. -/
def envSuccess : RunEnv :=
  { eventName := "pull_request", baselineInput := "", schemaFile := "schema.sql",
    tempFile := "/tmp/schema-origin-main.sql", gitRes := ⟨0, "CREATE TABLE t (i BIGINT);"⟩,
    baselineApplyExit := 0, currentApplyExit := 0,
    currentOutput := "ALTER TABLE t ADD COLUMN email text;" }

/-- A pull-request run where the schema file is absent at the base
revision (the git read exits 1). -/
def envAbsent : RunEnv :=
  { eventName := "pull_request", baselineInput := "", schemaFile := "schema.sql",
    tempFile := "/tmp/schema-origin-main.sql", gitRes := ⟨1, ""⟩,
    baselineApplyExit := 0, currentApplyExit := 0, currentOutput := "" }

/-- A pull-request run where the schema file is present but empty at the
base revision (the git read exits 0 with empty stdout). -/
def envEmptyBaseline : RunEnv :=
  { eventName := "pull_request", baselineInput := "", schemaFile := "schema.sql",
    tempFile := "/tmp/schema-origin-main.sql", gitRes := ⟨0, ""⟩,
    baselineApplyExit := 0, currentApplyExit := 0, currentOutput := "" }

/-- A pull-request run with an explicit `baseline-schema-file` input. -/
def envExplicitBaseline : RunEnv :=
  { eventName := "pull_request", baselineInput := "baseline.sql", schemaFile := "schema.sql",
    tempFile := "/tmp/schema-origin-main.sql", gitRes := ⟨0, "CREATE TABLE t (i BIGINT);"⟩,
    baselineApplyExit := 0, currentApplyExit := 0, currentOutput := "" }

/-- A legacy-implementation run where applying the base schema exits 1 but
the dry run succeeds. -/
def jsEnvTolerant : JsEnv :=
  { currentBranch := "feature", baseBranch := "main", fetchOk := true, checkoutOk := true,
    baseApplyExit := 1, dryRunExit := 0, dryRunStdout := "-- Nothing to apply --",
    hasToken := true, isPullRequest := true }

/-- A legacy-implementation run where the dry run exits 2. -/
def jsEnvDryFail : JsEnv :=
  { currentBranch := "feature", baseBranch := "main", fetchOk := true, checkoutOk := true,
    baseApplyExit := 0, dryRunExit := 2, dryRunStdout := "", hasToken := true,
    isPullRequest := true }

/-- C1 counterexample: on a pull-request run of `src/main.ts` in which a
baseline artifact exists (the git read succeeded, so a temp artifact was
materialized) and the baseline apply exits 1, the orchestrator does not
proceed to the current-schema step: the error is rethrown and the run fails. -/
theorem baselineApplyFailure_aborts_tsRun_cex :
    (runMain envBaselineFail).tempCreated = true ∧
    (runMain envBaselineFail).baselineApplied = true ∧
    (runMain envBaselineFail).currentApplied = false ∧
    (runMain envBaselineFail).failed = true := by
  refine ⟨by decide, by decide, by decide, by decide⟩

/-- C1 (amended): in the TypeScript orchestrator (`run` in `src/main.ts`), a
non-zero exit of the baseline apply aborts the run before the current-schema
step, and a non-zero exit of the current-schema step also aborts the run; in
the legacy JavaScript orchestrator (`run` in `src/index.js`), a non-zero
exit of the baseline apply is tolerated with a warning and the run proceeds
to the dry-run step, whose non-zero exit alone aborts the run. -/
theorem baselineApply_failure_policy :
    (∀ e : RunEnv, actualBaseline e ≠ "" → e.baselineApplyExit ≠ 0 →
      ((e.eventName = "pull_request" ∧ e.baselineInput = "") ∨ e.baselineInput ≠ "") →
      (runMain e).failed = true ∧ (runMain e).currentApplied = false) ∧
    (∀ e : RunEnv, e.currentApplyExit ≠ 0 → (runMain e).failed = true) ∧
    (∀ e : JsEnv, e.baseApplyExit ≠ 0 → e.dryRunExit = 0 →
      (runJs e).dryRunAttempted = true ∧ (runJs e).failed = false ∧
      (runJs e).baselineApplied = false) ∧
    (∀ e : JsEnv, e.dryRunExit ≠ 0 → (runJs e).failed = true) := by
  refine ⟨?_, ?_, ?_, ?_⟩
  · intro e hab hexit hmode
    simp [runMain, hmode, hab, hexit]
  · intro e h
    simp only [runMain]
    split_ifs <;> simp_all
  · intro e h1 h2
    simp [runJs, h1, h2]
  · intro e h
    simp [runJs, h]

/-- Witness for the amended C1 statement at concrete runs. -/
theorem baselineApply_failure_policy_witness :
    ((runMain envBaselineFail).failed = true ∧ (runMain envBaselineFail).currentApplied = false) ∧
    (runMain envCurrentFail).failed = true ∧
    ((runJs jsEnvTolerant).dryRunAttempted = true ∧ (runJs jsEnvTolerant).failed = false ∧
      (runJs jsEnvTolerant).baselineApplied = false) ∧
    (runJs jsEnvDryFail).failed = true :=
  ⟨baselineApply_failure_policy.1 envBaselineFail (by decide) (by decide) (by decide),
   baselineApply_failure_policy.2.1 envCurrentFail (by decide),
   baselineApply_failure_policy.2.2.1 jsEnvTolerant (by decide) (by decide),
   baselineApply_failure_policy.2.2.2 jsEnvDryFail (by decide)⟩

/-- C5: `getSchemaFromBranch` returns the absent marker (the empty string,
with the temp artifact deleted) exactly when the git read exits non-zero,
and on a zero exit returns the temp path with the captured content — in
particular an empty file for empty content; the orchestrator skips the
baseline apply entirely on the absent marker and performs it for the
materialized empty baseline. -/
theorem baseline_absent_vs_empty :
    (∀ (g : GitShowResult) (tf : String), g.exitCode ≠ 0 →
      getSchemaFromBranch g tf = ⟨"", none⟩) ∧
    (∀ (g : GitShowResult) (tf : String), g.exitCode = 0 →
      getSchemaFromBranch g tf = ⟨tf, some g.stdout⟩) ∧
    (∀ e : RunEnv, e.eventName = "pull_request" → e.baselineInput = "" →
      e.gitRes.exitCode ≠ 0 →
      (runMain e).baselineMode = true ∧ (runMain e).baselineApplied = false) ∧
    (∀ e : RunEnv, e.eventName = "pull_request" → e.baselineInput = "" →
      e.gitRes.exitCode = 0 → e.gitRes.stdout = "" → e.tempFile ≠ "" →
      (runMain e).baselineApplied = true) := by
  refine ⟨?_, ?_, ?_, ?_⟩
  · intro g tf h
    simp [getSchemaFromBranch, h]
  · intro g tf h
    simp [getSchemaFromBranch, h]
  · intro e h1 h2 h3
    simp only [runMain, actualBaseline, getSchemaFromBranch, h1, h2, h3]
    refine ⟨?_, ?_⟩ <;> split_ifs <;> simp_all
  · intro e h1 h2 h3 h4 h5
    have hab : actualBaseline e = e.tempFile := by
      simp [actualBaseline, getSchemaFromBranch, h2, h3]
    have hc : (e.eventName = "pull_request" ∧ e.baselineInput = "") ∨ e.baselineInput ≠ "" :=
      Or.inl ⟨h1, h2⟩
    simp only [runMain]
    rw [if_pos hc, hab, if_pos h5]
    split_ifs <;> rfl

/-- Witness for C5 at concrete runs: an absent baseline is skipped, an empty
baseline is applied. -/
theorem baseline_absent_vs_empty_witness :
    getSchemaFromBranch ⟨1, ""⟩ "/tmp/schema-origin-main.sql" = ⟨"", none⟩ ∧
    getSchemaFromBranch ⟨0, ""⟩ "/tmp/schema-origin-main.sql" =
      ⟨"/tmp/schema-origin-main.sql", some ""⟩ ∧
    ((runMain envAbsent).baselineMode = true ∧ (runMain envAbsent).baselineApplied = false) ∧
    (runMain envEmptyBaseline).baselineApplied = true :=
  ⟨baseline_absent_vs_empty.1 ⟨1, ""⟩ "/tmp/schema-origin-main.sql" (by decide),
   baseline_absent_vs_empty.2.1 ⟨0, ""⟩ "/tmp/schema-origin-main.sql" (by decide),
   baseline_absent_vs_empty.2.2.1 envAbsent (by decide) (by decide) (by decide),
   baseline_absent_vs_empty.2.2.2 envEmptyBaseline (by decide) (by decide) (by decide)
     (by decide) (by decide)⟩

/-- C8 counterexample: on a pull-request run of `src/main.ts` in which the
baseline artifact was created and applied but the current-schema step exits
1, the run fails and the temporary artifact is not removed — the unlink only
sits on the success path, so the artifact leaks on failure. -/
theorem temp_artifact_leak_cex :
    (runMain envCurrentFail).tempCreated = true ∧
    (runMain envCurrentFail).failed = true ∧
    (runMain envCurrentFail).tempRemoved = false := by
  refine ⟨by decide, by decide, by decide⟩

/-- C8 (amended): the baseline temporary artifact created by
`getSchemaFromBranch` is removed when and only when the run reaches its end
without failing; on every failing path (baseline apply or current-schema
apply exiting non-zero) the failure propagates without removing the
artifact. -/
theorem temp_artifact_removed_iff_success :
    (∀ e : RunEnv, (runMain e).tempCreated = true →
      (runMain e).tempRemoved = !(runMain e).failed) ∧
    (∀ e : RunEnv, (runMain e).failed = true → (runMain e).tempRemoved = false) := by
  constructor
  · intro e h
    simp only [runMain] at h ⊢
    split_ifs at h ⊢ <;> simp_all
  · intro e h
    simp only [runMain] at h ⊢
    split_ifs at h ⊢ <;> simp_all

/-- Witness for the amended C8 statement at concrete runs. -/
theorem temp_artifact_removed_iff_success_witness :
    (runMain envSuccess).tempRemoved = !(runMain envSuccess).failed ∧
    (runMain envBaselineFail).tempRemoved = false :=
  ⟨temp_artifact_removed_iff_success.1 envSuccess (by decide),
   temp_artifact_removed_iff_success.2 envBaselineFail (by decide)⟩

/-- C10: when an explicit `baseline-schema-file` input is supplied, the
orchestrator of `src/main.ts` takes the baseline-comparison branch and never
invokes `createComment`, whatever the event; conversely `createComment` is
invoked only on a pull-request event with no explicit baseline input. -/
theorem explicit_baseline_suppresses_comment :
    (∀ e : RunEnv, e.baselineInput ≠ "" →
      (runMain e).baselineMode = true ∧ (runMain e).commentInvoked = false) ∧
    (∀ e : RunEnv, (runMain e).commentInvoked = true →
      e.eventName = "pull_request" ∧ e.baselineInput = "") := by
  constructor
  · intro e h
    have hc : (e.eventName = "pull_request" ∧ e.baselineInput = "") ∨ e.baselineInput ≠ "" :=
      Or.inr h
    simp only [runMain]
    rw [if_pos hc]
    split_ifs <;> simp_all
  · intro e h
    simp only [runMain] at h
    split_ifs at h <;> simp_all

/-- Witness for C10: an explicit baseline input forces the comparison path
with no comment, and a successful pull-request run without one does invoke
the comment publisher. -/
theorem explicit_baseline_suppresses_comment_witness :
    ((runMain envExplicitBaseline).baselineMode = true ∧
     (runMain envExplicitBaseline).commentInvoked = false) ∧
    (envSuccess.eventName = "pull_request" ∧ envSuccess.baselineInput = "") :=
  ⟨explicit_baseline_suppresses_comment.1 envExplicitBaseline (by decide),
   explicit_baseline_suppresses_comment.2 envSuccess (by decide)⟩

/-- C6: on a pull request with a token and no prior matching comment, the
first `createComment` call performs one list call and one create call,
appending exactly one Bot comment carrying the identity title; a second call
performs one list call and one update call, rewriting that same comment id
in place and creating nothing, so at most one preview comment is live; and a
call outside a pull-request event, or with no token, performs zero API
calls and leaves the state untouched. -/
theorem comment_upsert_unique :
    (∀ (cs : List Comment) (nid : Nat) (tok b₁ b₂ : String),
      tok ≠ "" →
      cs.find? isPreviewComment = none →
      (∀ c ∈ cs, c.id ≠ nid) →
      createComment ⟨"pull_request", tok, cs, nid⟩ b₁ =
        (⟨"pull_request", tok, cs ++ [⟨nid, "Bot", commentBody b₁⟩], nid + 1⟩, ⟨1, 1, 0⟩) ∧
      createComment ⟨"pull_request", tok, cs ++ [⟨nid, "Bot", commentBody b₁⟩], nid + 1⟩ b₂ =
        (⟨"pull_request", tok, cs ++ [⟨nid, "Bot", commentBody b₂⟩], nid + 1⟩, ⟨1, 0, 1⟩)) ∧
    (∀ (ctx : CommentCtx) (b : String), ctx.eventName ≠ "pull_request" →
      createComment ctx b = (ctx, ⟨0, 0, 0⟩)) ∧
    (∀ (ctx : CommentCtx) (b : String), ctx.token = "" →
      createComment ctx b = (ctx, ⟨0, 0, 0⟩)) := by
  refine ⟨?_, ?_, ?_⟩
  · intro cs nid tok b₁ b₂ htok hfind hfresh
    have hnew : isPreviewComment ⟨nid, "Bot", commentBody b₁⟩ = true := by
      simp [isPreviewComment, commentBody_contains_title]
    have hfind2 : (cs ++ [(⟨nid, "Bot", commentBody b₁⟩ : Comment)]).find? isPreviewComment =
        some ⟨nid, "Bot", commentBody b₁⟩ := by
      rw [find?_append_of_none _ hfind, List.find?_cons_of_pos _ hnew]
    have hmap : (cs ++ [(⟨nid, "Bot", commentBody b₁⟩ : Comment)]).map
        (fun c => if c.id = nid then { c with body := commentBody b₂ } else c) =
        cs ++ [⟨nid, "Bot", commentBody b₂⟩] := by
      rw [List.map_append, map_keep_of_fresh _ hfresh]
      simp
    constructor
    · simp [createComment, htok, hfind]
    · simp [createComment, htok, hfind2, hmap]
  · intro ctx b h
    simp [createComment, h]
  · intro ctx b h
    simp [createComment, h]

/-- Witness for C6: creating then updating the preview comment on a fresh
pull request, and the two no-op cases. -/
theorem comment_upsert_unique_witness :
    createComment ⟨"pull_request", "tok", [], 0⟩ "ALTER TABLE t ADD c;" =
      (⟨"pull_request", "tok", [⟨0, "Bot", commentBody "ALTER TABLE t ADD c;"⟩], 1⟩, ⟨1, 1, 0⟩) ∧
    createComment ⟨"pull_request", "tok", [⟨0, "Bot", commentBody "ALTER TABLE t ADD c;"⟩], 1⟩
        "No schema changes detected." =
      (⟨"pull_request", "tok", [⟨0, "Bot", commentBody "No schema changes detected."⟩], 1⟩,
        ⟨1, 0, 1⟩) ∧
    createComment ⟨"push", "tok", [], 0⟩ "x" = (⟨"push", "tok", [], 0⟩, ⟨0, 0, 0⟩) ∧
    createComment ⟨"pull_request", "", [], 0⟩ "x" = (⟨"pull_request", "", [], 0⟩, ⟨0, 0, 0⟩) := by
  have h1 := comment_upsert_unique.1 [] 0 "tok" "ALTER TABLE t ADD c;"
    "No schema changes detected." (by decide) rfl (by simp)
  have h2 := comment_upsert_unique.2.1 ⟨"push", "tok", [], 0⟩ "x" (by decide)
  have h3 := comment_upsert_unique.2.2 ⟨"pull_request", "", [], 0⟩ "x" rfl
  exact ⟨by simpa using h1.1, by simpa using h1.2, h2, h3⟩

/-- C7: the interpretation in `src/index.js` yields `hasChanges = false`
exactly when the trimmed engine output is empty or includes one of the two
no-change sentinel phrases, and `hasChanges = true` for every other
non-empty plan text; and when the engine leaves an already-converged
database unchanged and reports no changes, running the current-schema step
twice yields `hasChanges = false` both times. -/
theorem hasChanges_characterization :
    (∀ s : String, hasChanges s = false ↔
      (strTrim s = "" ∨ strContainsB (strTrim s) "Nothing is modified" = true ∨
        strContainsB (strTrim s) "-- Nothing to apply --" = true)) ∧
    (∀ (σ : Type) (engine : σ → σ × String) (db : σ) (out : String),
      engine db = (db, out) → hasChanges out = false →
      dryRunTwice engine db = (false, false)) := by
  constructor
  · intro s
    have hlen : (0 < (strTrim s).length ↔ ¬ strTrim s = "") := by
      cases hst : strTrim s with
      | mk data =>
        cases data with
        | nil => simp [String.length]
        | cons c t =>
          simp only [String.length]
          constructor
          · intro _ hcontra
            exact absurd (congrArg String.data hcontra) (by simp)
          · intro _
            simp
    simp only [hasChanges, Bool.and_eq_false_iff, decide_eq_false_iff_not, hlen,
      Bool.not_eq_false', Bool.not_eq_true', not_not]
    tauto
  · intro σ engine db out h hc
    simp [dryRunTwice, h, hc]

/-- Witness for C7: an already-converged engine whose dry run reports the
no-change sentinel yields `hasChanges = false` on both consecutive runs. -/
theorem hasChanges_characterization_witness :
    dryRunTwice (fun d : Nat => (d, "-- Nothing to apply --")) 0 = (false, false) :=
  hasChanges_characterization.2 Nat (fun d => (d, "-- Nothing to apply --")) 0
    "-- Nothing to apply --" rfl (by decide)

/-- C9 counterexample: for the resolver of `src/main.ts` on windows/x64 the
artifact URL ends in `.tar.gz`, not `.zip` — the TypeScript resolver uses
the `.tar.gz` extension for every platform; only the legacy resolver of
`src/index.js` selects `.zip` on windows. -/
theorem ts_windows_extension_cex :
    downloadUrlTs "mysqldef" "v3.0.0" "win32" "x64" =
      .ok "https://github.com/sqldef/sqldef/releases/download/v3.0.0/mysqldef_windows_amd64.tar.gz" ∧
    strContainsB
      "https://github.com/sqldef/sqldef/releases/download/v3.0.0/mysqldef_windows_amd64.tar.gz"
      ".zip" = false ∧
    fileNameJs "mysql" "win32" "x64" = .ok "mysqldef_windows_amd64.zip" := by
  refine ⟨by rfl, by decide, by rfl⟩

/-- C9 (amended): for every supported (os, arch) pair the resolver of
`src/main.ts` deterministically names the artifact
`<command>_<os>_<arch>.tar.gz` — with the `.tar.gz` extension even on
windows — and the resolver of `src/index.js` names it
`<binary>_<os>_<arch>.<ext>` with `.zip` on windows and `.tar.gz`
otherwise; for a platform outside linux/darwin/win32, or an architecture
outside the supported set of each resolver, both fail with the unsupported
platform or architecture error before any download is attempted. -/
theorem artifact_naming_by_resolver :
    (∀ c v : String, v ≠ "latest" →
      downloadUrlTs c v "linux" "x64" =
        .ok ("https://github.com/sqldef/sqldef/releases/download/" ++ v ++ "/"
          ++ artifactNameTs c "linux" "amd64") ∧
      downloadUrlTs c v "linux" "arm64" =
        .ok ("https://github.com/sqldef/sqldef/releases/download/" ++ v ++ "/"
          ++ artifactNameTs c "linux" "arm64") ∧
      downloadUrlTs c v "darwin" "x64" =
        .ok ("https://github.com/sqldef/sqldef/releases/download/" ++ v ++ "/"
          ++ artifactNameTs c "darwin" "amd64") ∧
      downloadUrlTs c v "darwin" "arm64" =
        .ok ("https://github.com/sqldef/sqldef/releases/download/" ++ v ++ "/"
          ++ artifactNameTs c "darwin" "arm64") ∧
      downloadUrlTs c v "win32" "x64" =
        .ok ("https://github.com/sqldef/sqldef/releases/download/" ++ v ++ "/"
          ++ artifactNameTs c "windows" "amd64") ∧
      downloadUrlTs c v "win32" "arm64" =
        .ok ("https://github.com/sqldef/sqldef/releases/download/" ++ v ++ "/"
          ++ artifactNameTs c "windows" "arm64")) ∧
    (∀ c : String,
      downloadUrlTs c "latest" "linux" "arm64" =
        .ok ("https://github.com/sqldef/sqldef/releases/latest/download/"
          ++ artifactNameTs c "linux" "arm64")) ∧
    (∀ c v p a : String, p ≠ "linux" → p ≠ "darwin" → p ≠ "win32" →
      downloadUrlTs c v p a = .error ("Unsupported platform: " ++ p)) ∧
    (∀ c v a : String, a ≠ "x64" → a ≠ "arm64" →
      downloadUrlTs c v "linux" a = .error ("Unsupported architecture: " ++ a)) ∧
    (∀ dt bn a an : String, binaryNameJs dt = .ok bn → archNameJs a = .ok an →
      fileNameJs dt "win32" a = .ok (bn ++ "_" ++ "windows" ++ "_" ++ an ++ "." ++ "zip") ∧
      fileNameJs dt "linux" a = .ok (bn ++ "_" ++ "linux" ++ "_" ++ an ++ "." ++ "tar.gz") ∧
      fileNameJs dt "darwin" a = .ok (bn ++ "_" ++ "darwin" ++ "_" ++ an ++ "." ++ "tar.gz")) ∧
    (∀ dt p a : String, p ≠ "linux" → p ≠ "darwin" → p ≠ "win32" →
      fileNameJs dt p a = .error ("Unsupported platform: " ++ p)) ∧
    (∀ dt a : String, a ≠ "x64" → a ≠ "arm64" → a ≠ "arm" → a ≠ "ia32" →
      fileNameJs dt "linux" a = .error ("Unsupported architecture: " ++ a)) := by
  refine ⟨?_, ?_, ?_, ?_, ?_, ?_, ?_⟩
  · intro c v hv
    refine ⟨?_, ?_, ?_, ?_, ?_, ?_⟩ <;> simp [downloadUrlTs, osName, archNameTs, hv]
  · intro c
    simp [downloadUrlTs, osName, archNameTs]
  · intro c v p a h1 h2 h3
    simp [downloadUrlTs, osName, h1, h2, h3]
  · intro c v a h1 h2
    simp [downloadUrlTs, osName, archNameTs, h1, h2]
  · intro dt bn a an hbn han
    refine ⟨?_, ?_, ?_⟩ <;> simp [fileNameJs, osName, hbn, han]
  · intro dt p a h1 h2 h3
    simp [fileNameJs, osName, h1, h2, h3]
  · intro dt a h1 h2 h3 h4
    simp [fileNameJs, osName, archNameJs, h1, h2, h3, h4]

/-- Witness for the amended C9 statement at concrete platform pairs. -/
theorem artifact_naming_by_resolver_witness :
    downloadUrlTs "psqldef" "v3.0.0" "win32" "x64" =
      .ok ("https://github.com/sqldef/sqldef/releases/download/" ++ "v3.0.0" ++ "/"
        ++ artifactNameTs "psqldef" "windows" "amd64") ∧
    downloadUrlTs "mysqldef" "latest" "linux" "arm64" =
      .ok ("https://github.com/sqldef/sqldef/releases/latest/download/"
        ++ artifactNameTs "mysqldef" "linux" "arm64") ∧
    downloadUrlTs "mysqldef" "v3.0.0" "sunos" "x64" =
      .error ("Unsupported platform: " ++ "sunos") ∧
    downloadUrlTs "mysqldef" "v3.0.0" "linux" "mips" =
      .error ("Unsupported architecture: " ++ "mips") ∧
    fileNameJs "postgresql" "win32" "ia32" =
      .ok ("psqldef" ++ "_" ++ "windows" ++ "_" ++ "386" ++ "." ++ "zip") ∧
    fileNameJs "postgresql" "sunos" "x64" = .error ("Unsupported platform: " ++ "sunos") ∧
    fileNameJs "postgresql" "linux" "mips" =
      .error ("Unsupported architecture: " ++ "mips") :=
  ⟨((artifact_naming_by_resolver.1 "psqldef" "v3.0.0" (by decide)).2.2.2.2).1,
   artifact_naming_by_resolver.2.1 "mysqldef",
   artifact_naming_by_resolver.2.2.1 "mysqldef" "v3.0.0" "sunos" "x64"
     (by decide) (by decide) (by decide),
   artifact_naming_by_resolver.2.2.2.1 "mysqldef" "v3.0.0" "mips" (by decide) (by decide),
   (artifact_naming_by_resolver.2.2.2.2.1 "postgresql" "psqldef" "ia32" "386" rfl rfl).1,
   artifact_naming_by_resolver.2.2.2.2.2.1 "postgresql" "sunos" "x64"
     (by decide) (by decide) (by decide),
   artifact_naming_by_resolver.2.2.2.2.2.2 "postgresql" "mips"
     (by decide) (by decide) (by decide) (by decide)⟩

end SqldefPreview
